import Mathlib

/-
Shallow embedding of the HTTP request catcher (src/app.py).

The program is a single Flask handler `catch_all` that, for every inbound
request, builds a capture record (timestamp, client ip, user agent, method,
path, formatted headers, extracted body), prepends it to a global list
`requests_log`, trims that list to 50 entries, and renders an HTML page
listing the log.

The embedding models the request as the tuple of accessors the handler
consumes (`request.method`, the matched path segment, `request.headers`
as an ordered association list, `request.remote_addr`,
`request.args.to_dict()`, `request.form.to_dict()`,
`request.get_data(as_text=True)`, the declared content type, and
`request.host_url`).  The external JSON parser (Python's `json` module,
reached through Flask's `request.get_json(silent=True)`) is a parameter
`parseJson : String → Option Json`; `get_json_silent` reproduces the
Flask wrapper, in which a successfully parsed JSON null becomes the
Python value `None`, indistinguishable from a parse failure.
-/

namespace RequestCatcher

/-- Parsed JSON values as produced by the external JSON parser.  Numbers are
modelled as integers, which covers every value the specification's claims
mention. -/
inductive Json where
  | null : Json
  | bool (b : Bool) : Json
  | num (n : Int) : Json
  | str (s : String) : Json
  | arr (elems : List Json) : Json
  | obj (fields : List (String × Json)) : Json

/-- The dynamically typed `body` value stored in a capture record: a raw
string (the initial value and the fallback), a string-to-string mapping
(form fields or query parameters), or a parsed JSON value. -/
inductive BodyVal where
  | text (s : String) : BodyVal
  | mapping (m : List (String × String)) : BodyVal
  | json (j : Json) : BodyVal

/-- An inbound request, as the tuple of Flask accessors `catch_all` reads. -/
structure Request where
  method : String
  pathSegment : String
  headers : List (String × String)
  remote_addr : String
  queryArgs : List (String × String)
  formFields : List (String × String)
  rawData : String
  contentType : String
  hostUrl : String

/-- One entry of `requests_log`: the dictionary built at src/app.py lines
171-179. -/
structure RequestData where
  timestamp : String
  ip : String
  user_agent : String
  method : String
  path : String
  headers : String
  body : BodyVal

/-- The HTTP response of the handler: a status code and an HTML document. -/
structure Response where
  status : Nat
  html : String

/-- ASCII lowercasing of one character. -/
def asciiLower (c : Char) : Char :=
  if 65 ≤ c.toNat && c.toNat ≤ 90 then Char.ofNat (c.toNat + 32) else c

/-- Whether the second character list is an initial run of the first. -/
def leadsWith : List Char → List Char → Bool
  | _, [] => true
  | [], _ :: _ => false
  | c :: cs, d :: ds => c == d && leadsWith cs ds

/-- The characters before the first `;` of a content-type value. -/
def takeUntilSemi : List Char → List Char
  | [] => []
  | c :: cs => if c == ';' then [] else c :: takeUntilSemi cs

/-- Drop leading spaces. -/
def dropSpaces : List Char → List Char
  | [] => []
  | c :: cs => if c == ' ' then dropSpaces cs else c :: cs

/-- Drop spaces at both ends. -/
def trimChars (cs : List Char) : List Char :=
  (dropSpaces ((dropSpaces cs).reverse)).reverse

/-- Case-insensitive string comparison, as Werkzeug compares header names. -/
def lowerEq (a b : String) : Bool :=
  a.data.map asciiLower == b.data.map asciiLower

/-- Case-insensitive header lookup, as Werkzeug's `headers.get(key)`:
the value of the first header whose name matches `key` up to case, if any. -/
def headersGet (hs : List (String × String)) (key : String) : Option String :=
  (hs.find? (fun kv => lowerEq kv.fst key)).map (fun kv => kv.snd)

/-- src/app.py line 168: each header as one `Name: Value` line, in order. -/
def formatHeaders (hs : List (String × String)) : String :=
  String.intercalate "\n" (hs.map (fun kv => kv.fst ++ ": " ++ kv.snd))

/-- Werkzeug's `request.mimetype`: the content type without parameters,
lowercased. -/
def mimetype (ct : String) : String :=
  String.mk ((trimChars (takeUntilSemi ct.data)).map asciiLower)

/-- Werkzeug's `request.is_json`: the mimetype is `application/json` or an
`application/...+json` type. -/
def is_json (ct : String) : Bool :=
  mimetype ct == "application/json" ||
    (leadsWith (mimetype ct).data "application/".data &&
      leadsWith (mimetype ct).data.reverse "+json".data.reverse)

/-- Flask's `request.get_json(silent=True)` given the raw body text: the
parsed value on success, `None` on a parse error, and — because JSON null
parses to the Python value `None` — also `None` when the document is null. -/
def get_json_silent (parseJson : String → Option Json) (data : String) :
    Option Json :=
  match parseJson data with
  | some Json.null => none
  | some j => some j
  | none => none

/-- src/app.py lines 148-165: body extraction.  POST/PUT/PATCH with a JSON
content type try `get_json(silent=True)` and fall back to the raw text;
other POST/PUT/PATCH bodies use the form-field dictionary when it is
non-empty and the raw text otherwise; GET uses the query parameters; every
other method leaves the initial empty string. -/
def extractBody (parseJson : String → Option Json) (req : Request) : BodyVal :=
  if req.method == "POST" || req.method == "PUT" || req.method == "PATCH" then
    if is_json req.contentType then
      match get_json_silent parseJson req.rawData with
      | some j => BodyVal.json j
      | none => BodyVal.text req.rawData
    else
      if req.formFields.isEmpty then BodyVal.text req.rawData
      else BodyVal.mapping req.formFields
  else if req.method == "GET" then
    BodyVal.mapping req.queryArgs
  else
    BodyVal.text ""

/-- src/app.py lines 145-179: the capture record for one request, with
`now` standing for the formatted current time. -/
def buildRecord (parseJson : String → Option Json) (now : String)
    (req : Request) : RequestData :=
  { timestamp := now
  , ip := (headersGet req.headers "X-Forwarded-For").getD req.remote_addr
  , user_agent := (headersGet req.headers "User-Agent").getD "N/A"
  , method := req.method
  , path := "/" ++ req.pathSegment
  , headers := formatHeaders req.headers
  , body := extractBody parseJson req }

/-- src/app.py lines 182-186: `requests_log.insert(0, record)` followed by
`requests_log.pop()` when the length exceeds 50. -/
def logInsert (r : RequestData) (log : List RequestData) : List RequestData :=
  let inserted := r :: log
  if inserted.length > 50 then inserted.dropLast else inserted

/-- Python truthiness of a parsed JSON value, as tested by the template's
`req.body or ...`: null, false, zero, and empty strings, lists and
dictionaries are falsy. -/
def Json.truthy : Json → Bool
  | Json.null => false
  | Json.bool b => b
  | Json.num n => n != 0
  | Json.str s => !s.isEmpty
  | Json.arr elems => !elems.isEmpty
  | Json.obj fields => !fields.isEmpty

/-- Python truthiness of a stored body value: an empty string, empty
mapping, or falsy JSON value is falsy. -/
def BodyVal.truthy : BodyVal → Bool
  | BodyVal.text s => !s.isEmpty
  | BodyVal.mapping m => !m.isEmpty
  | BodyVal.json j => j.truthy

mutual

/-- Python `str()` of a parsed JSON value, for the rendered body block. -/
def Json.display : Json → String
  | Json.null => "None"
  | Json.bool b => if b then "True" else "False"
  | Json.num n => toString n
  | Json.str s => s
  | Json.arr elems => "[" ++ displayElems elems ++ "]"
  | Json.obj fields => "\x7b" ++ displayFields fields ++ "\x7d"

/-- Comma-separated rendering of a JSON array's elements. -/
def displayElems : List Json → String
  | [] => ""
  | [j] => Json.display j
  | j :: rest => Json.display j ++ ", " ++ displayElems rest

/-- Comma-separated rendering of a JSON object's fields. -/
def displayFields : List (String × Json) → String
  | [] => ""
  | [kv] => kv.fst ++ ": " ++ Json.display kv.snd
  | kv :: rest => kv.fst ++ ": " ++ Json.display kv.snd ++ ", " ++
      displayFields rest

end

/-- Python `str()` of a form-field or query-parameter dictionary. -/
def displayMapping (m : List (String × String)) : String :=
  "\x7b" ++ String.intercalate ", " (m.map (fun kv => kv.fst ++ ": " ++ kv.snd))
    ++ "\x7d"

/-- Python `str()` of a stored body value. -/
def BodyVal.display : BodyVal → String
  | BodyVal.text s => s
  | BodyVal.mapping m => displayMapping m
  | BodyVal.json j => j.display

/-- The fixed placeholder of the template's body block (src/app.py line
123). -/
def bodyPlaceholder : String := "No body or query parameters received."

/-- src/app.py line 123: `req.body or 'No body or query parameters
received.'` — the body when truthy, the placeholder otherwise. -/
def renderBodyBlock (b : BodyVal) : String :=
  if b.truthy then b.display else bodyPlaceholder

/-- The empty-state message of the template (src/app.py line 129). -/
def emptyState : String :=
  "No requests captured yet. Send a request to the URL above to get started."

/-- The text content of one request card of the template (src/app.py lines
110-125). -/
def renderRecord (r : RequestData) : String :=
  r.method ++ " " ++ r.path ++ " " ++ r.timestamp ++ "\n" ++
  "IP: " ++ r.ip ++ "\n" ++ "User-Agent: " ++ r.user_agent ++ "\n" ++
  r.headers ++ "\n" ++ renderBodyBlock r.body

/-- The text content of the rendered page (src/app.py lines 97-132): the
base URL, the count of captured records, and either the empty-state message
or each record's card, newest first. -/
def renderPage (log : List RequestData) (hostUrl : String) : String :=
  "HTTP Request Catcher\n" ++ hostUrl ++ "\n" ++
  "Captured Requests (" ++ toString log.length ++ ")\n" ++
  (if log.isEmpty then emptyState
   else String.intercalate "\n" (log.map renderRecord))

/-- src/app.py lines 139-193: the whole handler.  Builds the record,
prepends and trims the log, and answers status 200 with the rendered page.
Returns the response together with the updated log. -/
def catch_all (parseJson : String → Option Json) (now : String)
    (req : Request) (log : List RequestData) : Response × List RequestData :=
  let record := buildRecord parseJson now req
  let newLog := logInsert record log
  ({ status := 200, html := renderPage newLog req.hostUrl }, newLog)

/-- Handling a sequence of requests (each with its capture time) in order,
threading the log through `catch_all`. -/
def handleAll (parseJson : String → Option Json)
    (reqs : List (String × Request)) (log : List RequestData) :
    List RequestData :=
  reqs.foldl (fun l nr => (catch_all parseJson nr.fst nr.snd l).snd) log

/-! ### Concrete fixtures used to instantiate the theorems -/

/-- A JSON parser stub failing on every input. -/
def pjNone : String → Option Json := fun _ => none

/-- A JSON parser defined only on the document `null`. -/
def pjNull : String → Option Json :=
  fun s => if s == "null" then some Json.null else none

/-- A JSON parser defined only on the document `0`. -/
def pjZero : String → Option Json :=
  fun s => if s == "0" then some (Json.num 0) else none

/-- A plain GET request to the root path. -/
def baseReq : Request :=
  { method := "GET"
  , pathSegment := ""
  , headers := []
  , remote_addr := "127.0.0.1"
  , queryArgs := []
  , formFields := []
  , rawData := ""
  , contentType := ""
  , hostUrl := "http://localhost:5000/" }

/-- The capture record of the plain GET fixture. -/
def rec0 : RequestData := buildRecord pjNone "t" baseReq

/-- A GET request carrying an `X-Forwarded-For` header with an empty value
from peer 1.2.3.4. -/
def reqEmptyXff : Request :=
  { baseReq with
      headers := [("X-Forwarded-For", "")],
      remote_addr := "1.2.3.4" }

/-- A GET request carrying `X-Forwarded-For: 9.9.9.9` from peer 1.1.1.1. -/
def reqXff : Request :=
  { baseReq with
      headers := [("X-Forwarded-For", "9.9.9.9")],
      remote_addr := "1.1.1.1" }

/-- A POST request declaring JSON content whose payload is the document
`null`. -/
def reqJsonNull : Request :=
  { baseReq with
      method := "POST",
      contentType := "application/json",
      rawData := "null" }

/-- A POST request declaring JSON content whose payload is the malformed
document `\x7bx:\x7d`. -/
def reqJsonBad : Request :=
  { baseReq with
      method := "POST",
      contentType := "application/json",
      rawData := "\x7bx:\x7d" }

/-- A POST request declaring JSON content whose payload is the document
`0`. -/
def reqJsonZero : Request :=
  { baseReq with
      method := "POST",
      contentType := "application/json",
      rawData := "0" }

/-- A POST request with a form-encoded body of two fields. -/
def reqForm : Request :=
  { baseReq with
      method := "POST",
      contentType := "application/x-www-form-urlencoded",
      formFields := [("a", "1"), ("b", "2")],
      rawData := "a=1&b=2" }

/-- A GET request for `/foo?a=1&b=2`. -/
def reqGetFoo : Request :=
  { baseReq with
      pathSegment := "foo",
      queryArgs := [("a", "1"), ("b", "2")] }

/-- A DELETE request. -/
def reqDelete : Request := { baseReq with method := "DELETE" }

/-! ### Helper lemmas about the bounded log -/

/-- Inserting into a log that respects the capacity is prepend-then-take. -/
lemma logInsert_eq_take (r : RequestData) (log : List RequestData)
    (h : log.length ≤ 50) : logInsert r log = (r :: log).take 50 := by
  unfold logInsert
  by_cases h51 : (r :: log).length > 50
  · simp only [h51, if_pos]
    rw [List.dropLast_eq_take]
    congr 1
    simp only [List.length_cons] at h51 ⊢
    omega
  · simp only [h51, if_neg, not_false_iff]
    rw [List.take_of_length_le]
    omega

/-- The head of the log after an insertion is the inserted record. -/
lemma head?_logInsert (r : RequestData) (log : List RequestData) :
    (logInsert r log).head? = some r := by
  unfold logInsert
  by_cases h51 : (r :: log).length > 50
  · simp only [h51, if_pos]
    cases log with
    | nil => simp at h51
    | cons a l => simp [List.dropLast]
  · simp only [List.length_cons, gt_iff_lt] at h51
    simp [h51]

/-- Truncation to capacity absorbs an earlier truncation of the suffix. -/
lemma take_append_absorb (X Y : List RequestData) :
    (X ++ Y.take 50).take 50 = (X ++ Y).take 50 := by
  rw [List.take_append_eq_append_take, List.take_append_eq_append_take,
    List.take_take]
  congr 1
  congr 1
  omega

/-- Folding `logInsert` over a record sequence keeps, newest first, the
last 50 records of the sequence prefixed to the initial log. -/
lemma foldl_logInsert_eq (rs : List RequestData) :
    ∀ acc : List RequestData, acc.length ≤ 50 →
      rs.foldl (fun l r => logInsert r l) acc = (rs.reverse ++ acc).take 50 := by
  induction rs with
  | nil =>
      intro acc h
      simp [List.take_of_length_le h]
  | cons r rs ih =>
      intro acc h
      have hlen : (logInsert r acc).length ≤ 50 := by
        rw [logInsert_eq_take r acc h]
        simp only [List.length_take, List.length_cons]
        omega
      rw [List.foldl_cons, ih (logInsert r acc) hlen,
        logInsert_eq_take r acc h, take_append_absorb]
      simp [List.append_assoc]

/-- The handler's log update is `logInsert` of the built record. -/
lemma catch_all_snd (pj : String → Option Json) (now : String) (req : Request)
    (log : List RequestData) :
    (catch_all pj now req log).snd = logInsert (buildRecord pj now req) log :=
  rfl

/-- A method named by one of POST, PUT, PATCH passes the handler's
method test. -/
lemma method_ppp {req : Request}
    (h : req.method = "POST" ∨ req.method = "PUT" ∨ req.method = "PATCH") :
    (req.method == "POST" || req.method == "PUT" || req.method == "PATCH")
      = true := by
  rcases h with h | h | h <;> simp [h]

/-- `handleAll` is the fold of `logInsert` over the built records. -/
lemma handleAll_eq_foldl (pj : String → Option Json)
    (reqs : List (String × Request)) (log : List RequestData) :
    handleAll pj reqs log =
      (reqs.map (fun nr => buildRecord pj nr.fst nr.snd)).foldl
        (fun l r => logInsert r l) log := by
  rw [handleAll, List.foldl_map]
  rfl

/-! ### The claims -/

/-- C1: handling any sequence of N requests from the empty log leaves a log
of length min(N, 50), and a single insertion into any log of length at most
50 yields a log of length at most 50, so the bound is re-established
immediately after every insertion. -/
theorem log_length_invariant :
    (∀ (pj : String → Option Json) (now : String) (req : Request)
        (log : List RequestData), log.length ≤ 50 →
        ((catch_all pj now req log).snd).length ≤ 50) ∧
    (∀ (pj : String → Option Json) (reqs : List (String × Request)),
        (handleAll pj reqs []).length = min reqs.length 50) := by
  constructor
  · intro pj now req log h
    rw [catch_all_snd, logInsert_eq_take _ _ h]
    simp only [List.length_take, List.length_cons]
    omega
  · intro pj reqs
    rw [handleAll_eq_foldl, foldl_logInsert_eq _ [] (by simp)]
    simp only [List.length_take, List.length_append, List.length_reverse,
      List.length_map, List.length_nil]
    omega

/-- Witness for C1 at a concrete request sequence. -/
theorem log_length_invariant_witness :
    ((catch_all pjNone "t" baseReq []).snd).length ≤ 50 ∧
    (handleAll pjNone [("t", baseReq)] []).length =
      min (List.length [("t", baseReq)]) 50 :=
  ⟨log_length_invariant.1 pjNone "t" baseReq [] (by simp),
   log_length_invariant.2 pjNone [("t", baseReq)]⟩

/-- C2: the handler puts the newly built record at index 0 of the log, and
folding the insertion over 51 records R1..R51 starting from the empty log
yields [R51, R50, ..., R2], evicting the oldest record R1 from the tail. -/
theorem prepend_front_evict_tail :
    (∀ (pj : String → Option Json) (now : String) (req : Request)
        (log : List RequestData),
        ((catch_all pj now req log).snd).head? =
          some (buildRecord pj now req)) ∧
    (∀ rs : List RequestData, rs.length = 51 →
        rs.foldl (fun l r => logInsert r l) [] = (rs.drop 1).reverse) := by
  constructor
  · intro pj now req log
    rw [catch_all_snd, head?_logInsert]
  · intro rs h
    rw [foldl_logInsert_eq rs [] (by simp), List.append_nil,
      List.reverse_drop]
    congr 1
    omega

/-- Witness for C2 at a concrete insertion and a concrete sequence of 51
records. -/
theorem prepend_front_evict_tail_witness :
    ((catch_all pjNone "t" baseReq []).snd).head? =
      some (buildRecord pjNone "t" baseReq) ∧
    (List.replicate 51 rec0).foldl (fun l r => logInsert r l) [] =
      ((List.replicate 51 rec0).drop 1).reverse :=
  ⟨prepend_front_evict_tail.1 pjNone "t" baseReq [],
   prepend_front_evict_tail.2 (List.replicate 51 rec0) (by simp)⟩

/-- C3 counterexample: for a request whose `X-Forwarded-For` header is
present with an empty value and whose peer address is 1.2.3.4, the handler
stores the empty header value, not the peer address the claim requires. -/
theorem client_address_counterexample :
    headersGet reqEmptyXff.headers "X-Forwarded-For" = some "" ∧
    reqEmptyXff.remote_addr = "1.2.3.4" ∧
    (buildRecord pjNone "t" reqEmptyXff).ip = "" ∧
    (buildRecord pjNone "t" reqEmptyXff).ip ≠ reqEmptyXff.remote_addr :=
  ⟨by decide, rfl, by decide, by decide⟩

/-- C3 (amended): the record's clientAddress is the value of the
`X-Forwarded-For` header whenever that header is present — even when its
value is empty — and is the transport-level peer address only when the
header is absent; in particular, with `X-Forwarded-For: 9.9.9.9` the
clientAddress is 9.9.9.9 regardless of the peer address. -/
theorem client_address_amended :
    (∀ (pj : String → Option Json) (now : String) (req : Request)
        (v : String),
        headersGet req.headers "X-Forwarded-For" = some v →
        (buildRecord pj now req).ip = v) ∧
    (∀ (pj : String → Option Json) (now : String) (req : Request),
        headersGet req.headers "X-Forwarded-For" = none →
        (buildRecord pj now req).ip = req.remote_addr) ∧
    (∀ (pj : String → Option Json) (now : String) (req : Request),
        headersGet req.headers "X-Forwarded-For" = some "9.9.9.9" →
        (buildRecord pj now req).ip = "9.9.9.9") := by
  refine ⟨?_, ?_, ?_⟩
  · intro pj now req v h
    show (headersGet req.headers "X-Forwarded-For").getD req.remote_addr = v
    rw [h]
    rfl
  · intro pj now req h
    show (headersGet req.headers "X-Forwarded-For").getD req.remote_addr
        = req.remote_addr
    rw [h]
    rfl
  · intro pj now req h
    show (headersGet req.headers "X-Forwarded-For").getD req.remote_addr
        = "9.9.9.9"
    rw [h]
    rfl

/-- Witness for the amended C3 at concrete requests with and without the
forwarding header. -/
theorem client_address_amended_witness :
    (buildRecord pjNone "t" reqXff).ip = "9.9.9.9" ∧
    (buildRecord pjNone "t" baseReq).ip = baseReq.remote_addr :=
  ⟨client_address_amended.2.2 pjNone "t" reqXff (by decide),
   client_address_amended.2.1 pjNone "t" baseReq (by decide)⟩

/-- C4 counterexample: for a POST declaring JSON content whose payload is
the document `null`, parsing succeeds with the JSON value null, yet the
stored body is the raw text "null" and not the parsed value. -/
theorem json_body_counterexample :
    pjNull reqJsonNull.rawData = some Json.null ∧
    extractBody pjNull reqJsonNull = BodyVal.text "null" ∧
    BodyVal.text "null" ≠ BodyVal.json Json.null :=
  ⟨rfl, rfl, fun h => BodyVal.noConfusion h⟩

/-- C4 (amended): for POST/PUT/PATCH with a JSON content type, the body is
the parsed JSON value when parsing succeeds with a non-null value; when
parsing fails — or the document is JSON null — the body is the raw payload
text, with no error surfaced; a POST with JSON content type and malformed
payload `\x7bx:\x7d` yields the literal raw text. -/
theorem json_body_amended :
    (∀ (pj : String → Option Json) (req : Request) (j : Json),
        (req.method = "POST" ∨ req.method = "PUT" ∨ req.method = "PATCH") →
        is_json req.contentType = true →
        pj req.rawData = some j → j ≠ Json.null →
        extractBody pj req = BodyVal.json j) ∧
    (∀ (pj : String → Option Json) (req : Request),
        (req.method = "POST" ∨ req.method = "PUT" ∨ req.method = "PATCH") →
        is_json req.contentType = true →
        (pj req.rawData = none ∨ pj req.rawData = some Json.null) →
        extractBody pj req = BodyVal.text req.rawData) ∧
    extractBody pjNone reqJsonBad = BodyVal.text "\x7bx:\x7d" := by
  refine ⟨?_, ?_, rfl⟩
  · intro pj req j hm hct hp hnull
    have hb := method_ppp hm
    cases j with
    | null => exact absurd rfl hnull
    | bool b => simp [extractBody, hb, hct, get_json_silent, hp]
    | num n => simp [extractBody, hb, hct, get_json_silent, hp]
    | str s => simp [extractBody, hb, hct, get_json_silent, hp]
    | arr es => simp [extractBody, hb, hct, get_json_silent, hp]
    | obj fs => simp [extractBody, hb, hct, get_json_silent, hp]
  · intro pj req hm hct hp
    have hb := method_ppp hm
    rcases hp with hp | hp <;>
      simp [extractBody, hb, hct, get_json_silent, hp]

/-- Witness for the amended C4 at a successfully parsed document `0`, a
null document, and a malformed document. -/
theorem json_body_amended_witness :
    extractBody pjZero reqJsonZero = BodyVal.json (Json.num 0) ∧
    extractBody pjNull reqJsonNull = BodyVal.text reqJsonNull.rawData :=
  ⟨json_body_amended.1 pjZero reqJsonZero (Json.num 0) (Or.inl rfl)
      (by decide) rfl (fun h => Json.noConfusion h),
   json_body_amended.2.1 pjNull reqJsonNull (Or.inl rfl) (by decide)
      (Or.inr rfl)⟩

/-- C5: for POST/PUT/PATCH whose content type does not indicate JSON, the
body is the form-field mapping when form parsing yields at least one
field, and the raw payload text otherwise; and when the content type does
indicate JSON, the form fields are never consulted. -/
theorem form_body_order :
    (∀ (pj : String → Option Json) (req : Request),
        (req.method = "POST" ∨ req.method = "PUT" ∨ req.method = "PATCH") →
        is_json req.contentType = false → req.formFields ≠ [] →
        extractBody pj req = BodyVal.mapping req.formFields) ∧
    (∀ (pj : String → Option Json) (req : Request),
        (req.method = "POST" ∨ req.method = "PUT" ∨ req.method = "PATCH") →
        is_json req.contentType = false → req.formFields = [] →
        extractBody pj req = BodyVal.text req.rawData) ∧
    (∀ (pj : String → Option Json) (req : Request)
        (f g : List (String × String)),
        is_json req.contentType = true →
        extractBody pj { req with formFields := f } =
          extractBody pj { req with formFields := g }) := by
  refine ⟨?_, ?_, ?_⟩
  · intro pj req hm hct hne
    have hb := method_ppp hm
    cases hf : req.formFields with
    | nil => exact absurd hf hne
    | cons a l => simp [extractBody, hb, hct, hf]
  · intro pj req hm hct hff
    have hb := method_ppp hm
    simp [extractBody, hb, hct, hff]
  · intro pj req f g hct
    cases hm : (req.method == "POST" || req.method == "PUT"
        || req.method == "PATCH") <;>
      simp [extractBody, hm, hct]

/-- Witness for C5 at a form-encoded POST, the same POST with no form
fields, and a JSON POST with differing form fields. -/
theorem form_body_order_witness :
    extractBody pjNone reqForm = BodyVal.mapping reqForm.formFields ∧
    extractBody pjNone { reqForm with formFields := [] } =
      BodyVal.text reqForm.rawData ∧
    extractBody pjNone { reqJsonNull with formFields := [("a", "1")] } =
      extractBody pjNone { reqJsonNull with formFields := [] } :=
  ⟨form_body_order.1 pjNone reqForm (Or.inl rfl) (by decide) (by decide),
   form_body_order.2.1 pjNone { reqForm with formFields := [] }
      (Or.inl rfl) (by decide) rfl,
   form_body_order.2.2 pjNone reqJsonNull [("a", "1")] [] (by decide)⟩

/-- C6: for every GET request the record's path is "/" followed by the
matched path segment — exactly "/" for the root route — and its body is
the mapping of query parameters; GET `/foo?a=1&b=2` yields path "/foo" and
body mapping a to 1 and b to 2. -/
theorem get_path_and_query :
    (∀ (pj : String → Option Json) (now : String) (req : Request),
        req.method = "GET" →
        (buildRecord pj now req).path = "/" ++ req.pathSegment ∧
        (buildRecord pj now req).body = BodyVal.mapping req.queryArgs) ∧
    (∀ (pj : String → Option Json) (now : String) (req : Request),
        req.method = "GET" → req.pathSegment = "" →
        (buildRecord pj now req).path = "/") ∧
    ((buildRecord pjNone "t" reqGetFoo).path = "/foo" ∧
      (buildRecord pjNone "t" reqGetFoo).body =
        BodyVal.mapping [("a", "1"), ("b", "2")]) := by
  refine ⟨?_, ?_, rfl, rfl⟩
  · intro pj now req hm
    refine ⟨rfl, ?_⟩
    show extractBody pj req = BodyVal.mapping req.queryArgs
    simp [extractBody, hm]
  · intro pj now req hm hp
    show "/" ++ req.pathSegment = "/"
    rw [hp]
    decide

/-- Witness for C6 at the `/foo?a=1&b=2` request and the root request. -/
theorem get_path_and_query_witness :
    ((buildRecord pjNone "t" reqGetFoo).path = "/" ++ reqGetFoo.pathSegment ∧
      (buildRecord pjNone "t" reqGetFoo).body =
        BodyVal.mapping reqGetFoo.queryArgs) ∧
    (buildRecord pjNone "t" baseReq).path = "/" :=
  ⟨get_path_and_query.1 pjNone "t" reqGetFoo rfl,
   get_path_and_query.2.1 pjNone "t" baseReq rfl rfl⟩

/-- C7: for every request whose method is none of GET/POST/PUT/PATCH the
extracted body is the initial empty string and the rendered body block is
the fixed placeholder; indeed every falsy — empty or absent — body value
renders as the placeholder, which is itself a non-empty string. -/
theorem placeholder_for_empty_body :
    (∀ (pj : String → Option Json) (req : Request),
        req.method ≠ "GET" → req.method ≠ "POST" → req.method ≠ "PUT" →
        req.method ≠ "PATCH" →
        extractBody pj req = BodyVal.text "" ∧
        renderBodyBlock (extractBody pj req) = bodyPlaceholder) ∧
    (∀ b : BodyVal, b.truthy = false → renderBodyBlock b = bodyPlaceholder) ∧
    bodyPlaceholder ≠ "" := by
  refine ⟨?_, ?_, by decide⟩
  · intro pj req hG hP hU hA
    have hb : (req.method == "POST" || req.method == "PUT"
        || req.method == "PATCH") = false := by
      simp only [Bool.or_eq_false_iff, beq_eq_false_iff_ne, ne_eq]
      exact ⟨⟨hP, hU⟩, hA⟩
    have hg : (req.method == "GET") = false := by
      simp only [beq_eq_false_iff_ne, ne_eq]
      exact hG
    have he : extractBody pj req = BodyVal.text "" := by
      simp [extractBody, hb, hg]
    exact ⟨he, by rw [he]; rfl⟩
  · intro b hb
    simp [renderBodyBlock, hb]

/-- Witness for C7 at a DELETE request and an empty query mapping. -/
theorem placeholder_for_empty_body_witness :
    (extractBody pjNone reqDelete = BodyVal.text "" ∧
      renderBodyBlock (extractBody pjNone reqDelete) = bodyPlaceholder) ∧
    renderBodyBlock (BodyVal.mapping []) = bodyPlaceholder :=
  ⟨placeholder_for_empty_body.1 pjNone reqDelete (by decide) (by decide)
      (by decide) (by decide),
   placeholder_for_empty_body.2.1 (BodyVal.mapping []) rfl⟩

/-- C8: the capture path is total — for every request, on any path, with
any method and any content, the handler answers status 200 with the page
rendered from the updated log; in the embedding every parse outcome,
including failure, is handled by a fallback, so the handler is a total
function. -/
theorem capture_total_status_200 :
    ∀ (pj : String → Option Json) (now : String) (req : Request)
      (log : List RequestData),
      (catch_all pj now req log).fst.status = 200 ∧
      (catch_all pj now req log).fst.html =
        renderPage (logInsert (buildRecord pj now req) log) req.hostUrl :=
  fun _ _ _ _ => ⟨rfl, rfl⟩

/-- C9: a POST/PUT/PATCH with JSON content type whose payload parses to a
falsy JSON value — 0, false, the empty string, the empty object, or the
empty array — stores that parsed value as the body, yet the rendered body
block is the placeholder, although a non-empty body was received and
parsed. -/
theorem falsy_json_renders_placeholder :
    ∀ (pj : String → Option Json) (req : Request) (j : Json),
      (req.method = "POST" ∨ req.method = "PUT" ∨ req.method = "PATCH") →
      is_json req.contentType = true →
      pj req.rawData = some j →
      (j = Json.num 0 ∨ j = Json.bool false ∨ j = Json.str "" ∨
        j = Json.obj [] ∨ j = Json.arr []) →
      extractBody pj req = BodyVal.json j ∧
      renderBodyBlock (extractBody pj req) = bodyPlaceholder := by
  intro pj req j hm hct hp hj
  have hb := method_ppp hm
  have he : extractBody pj req = BodyVal.json j := by
    rcases hj with rfl | rfl | rfl | rfl | rfl <;>
      simp [extractBody, hb, hct, get_json_silent, hp]
  refine ⟨he, ?_⟩
  rw [he]
  rcases hj with rfl | rfl | rfl | rfl | rfl <;> rfl

/-- Witness for C9 at a POST whose JSON payload is the document `0`. -/
theorem falsy_json_renders_placeholder_witness :
    extractBody pjZero reqJsonZero = BodyVal.json (Json.num 0) ∧
    renderBodyBlock (extractBody pjZero reqJsonZero) = bodyPlaceholder :=
  falsy_json_renders_placeholder pjZero reqJsonZero (Json.num 0)
    (Or.inl rfl) (by decide) rfl (Or.inl rfl)

/-- C10: a POST/PUT/PATCH with JSON content type whose payload is the
document `null` — which the parser accepts as the JSON value null — stores
the raw text "null": a successfully parsed JSON null takes the same
raw-text fallback branch as a parse failure. -/
theorem null_json_raw_text_fallback :
    ∀ (pj : String → Option Json) (req : Request),
      (req.method = "POST" ∨ req.method = "PUT" ∨ req.method = "PATCH") →
      is_json req.contentType = true →
      req.rawData = "null" →
      pj req.rawData = some Json.null →
      extractBody pj req = BodyVal.text "null" := by
  intro pj req hm hct hraw hp
  have hb := method_ppp hm
  rw [← hraw]
  simp [extractBody, hb, hct, get_json_silent, hp]

/-- Witness for C10 at the concrete null-payload POST. -/
theorem null_json_raw_text_fallback_witness :
    extractBody pjNull reqJsonNull = BodyVal.text "null" :=
  null_json_raw_text_fallback pjNull reqJsonNull (Or.inl rfl) (by decide)
    rfl rfl

end RequestCatcher
